import Mathlib

/-!
Verification of the task-pool subsystem (`gst/gsttaskpool.c`).

The default backend wraps a GLib `GThreadPool`; the file also contains a
reference-counted schedule-thread manager and a process-wide default-pool
singleton. We embed the C functions as pure Lean functions: out parameters
become extra result components (`none` = the callee wrote nothing), pointers
become `Option`, the `GThreadPool` collaborator is modelled by its documented
GLib semantics as an explicit queue of accepted jobs, and job invocations are
recorded in an explicit history list.
-/

namespace GstTaskPool

/-- One submitted job. In the C source a `TaskData` pairs a function pointer
with its user data; we identify each submission by a natural number, and
"invoking the job" means appending that number to the invocation history. -/
abbrev TaskData := Nat

/-- An error value written through a `GError **` out parameter. -/
structure GError where
  code : Nat
deriving DecidableEq, Repr

/-- Model of GLib's `GThreadPool` as used by the default backend: the queue of
jobs accepted (by `g_thread_pool_push`) and not yet run by a worker thread. -/
structure GThreadPool where
  queued : List TaskData
deriving DecidableEq, Repr

/-- The parts of a `GstTaskPool` object that the default backend touches:
`pool` is the `pool->pool` field (`NULL` encoded as `none`), and `executed`
is the history of jobs whose function `default_func` has invoked, in
invocation order. -/
structure PoolState where
  pool : Option GThreadPool
  executed : List TaskData
deriving DecidableEq, Repr

/-- A pool fresh out of `gst_task_pool_new`: `pool->pool` is `NULL` and no
job has run. -/
def poolInit : PoolState := { pool := none, executed := [] }

/-- Model of `g_thread_pool_new` (GLib): whether the allocation yields a
thread pool is an environment choice `outcome`; GLib writes the error
location only when the caller supplied one (`errLoc = true`) and the
allocation failed. -/
def g_thread_pool_new (errLoc : Bool) (outcome : Option GThreadPool) :
    Option GThreadPool × Option GError :=
  (outcome, if errLoc && outcome.isNone then some { code := 0 } else none)

/-- `default_prepare` (gsttaskpool.c lines 86-94): stores the result of
`g_thread_pool_new` in `pool->pool`. The error location handed to
`g_thread_pool_new` is `NULL` (line 92) and the caller's `error` out
parameter is never written, so the second component (what `default_prepare`
wrote to `error`) is always `none`. -/
def default_prepare (st : PoolState) (outcome : Option GThreadPool) :
    PoolState × Option GError :=
  ({ st with pool := (g_thread_pool_new false outcome).1 }, none)

/-- Model of `g_thread_pool_push` (GLib): the task is appended to the queue
of work to do; per the GLib documentation an error can be reported (a new
worker thread could not be created) but the task is queued nonetheless, so
the reported error is an environment choice `errOut`. -/
def g_thread_pool_push (tp : GThreadPool) (t : TaskData)
    (errOut : Option GError) : GThreadPool × Option GError :=
  ({ queued := tp.queued ++ [t] }, errOut)

/-- `default_push` (lines 110-129): allocates a `TaskData`; if `pool->pool`
is non-`NULL` the task is pushed there with the caller's error location,
otherwise the `TaskData` is freed again — the job is dropped without being
invoked — and `error` is untouched. The function returns `NULL` on both
paths (line 128). Result: new state, returned handle, what was written to
`error`. -/
def default_push (st : PoolState) (t : TaskData) (errOut : Option GError) :
    PoolState × Option Unit × Option GError :=
  match st.pool with
  | some tp =>
      let r := g_thread_pool_push tp t errOut
      ({ st with pool := some r.1 }, none, r.2)
  | none => (st, none, none)

/-- One worker thread of the GLib thread pool taking the next queued task and
running `default_func` on it (lines 73-84): the task leaves the queue and its
function is invoked exactly once, which we record in `executed`. -/
def workerStep (st : PoolState) : PoolState :=
  match st.pool with
  | some tp =>
      match tp.queued with
      | [] => st
      | t :: rest =>
          { pool := some { queued := rest }, executed := st.executed ++ [t] }
  | none => st

/-- Model of `g_thread_pool_free pool FALSE TRUE` (GLib): with
`immediate = FALSE` the still-queued tasks are all processed, and with
`wait = TRUE` the call blocks until they and the running ones have finished;
the jobs invoked during the call are exactly the queued ones. -/
def g_thread_pool_free_queued (tp : GThreadPool) : List TaskData := tp.queued

/-- `default_cleanup` (lines 96-108): if `pool->pool` is non-`NULL` it is
freed with `g_thread_pool_free (pool, FALSE, TRUE)` — scheduled jobs are
still processed and running ones waited for, per the comment at lines
101-103 — and `pool->pool` is set to `NULL`. -/
def default_cleanup (st : PoolState) : PoolState :=
  match st.pool with
  | some tp =>
      { pool := none, executed := st.executed ++ g_thread_pool_free_queued tp }
  | none => st

/-- `default_join` (lines 131-135): the body is empty; nothing happens and no
error can be raised (the function has no error parameter at all). -/
def default_join (st : PoolState) (_id : Option Unit) : PoolState := st

/-- An externally visible event on the default backend: a `push` of a job
(with an untouched error location), a worker picking up a queued job, or a
`cleanup` call. -/
inductive Act where
  | push (t : TaskData)
  | work
  | cleanup
deriving DecidableEq, Repr

/-- Apply one event to the pool state. -/
def stepAct (st : PoolState) : Act → PoolState
  | Act.push t => (default_push st t none).1
  | Act.work => workerStep st
  | Act.cleanup => default_cleanup st

/-- Run a list of events in order. -/
def runActs (st : PoolState) : List Act → PoolState
  | [] => st
  | a :: as => runActs (stepAct st a) as

/-- Number of times job `t` is pushed in an event list. -/
def pushCount (t : TaskData) : List Act → Nat
  | [] => 0
  | Act.push u :: as => (if u = t then 1 else 0) + pushCount t as
  | Act.work :: as => pushCount t as
  | Act.cleanup :: as => pushCount t as

/-- A pool on which `default_prepare` has succeeded: the backend exists with
an empty queue and nothing has run yet. -/
def preparedPool : PoolState := { pool := some { queued := [] }, executed := [] }

/-- Resource and synchronization operations a
`gst_task_pool_need_schedule_thread` call can perform while holding the
schedule lock, in program order. `condWaitOnce` is a single bare
`g_cond_wait` call; `condWaitGuarded` would be a `g_cond_wait` inside a
predicate-rechecking loop (the source never performs one). -/
inductive SchedOp where
  | contextNew
  | loopNew
  | threadNew
  | condWaitOnce
  | condWaitGuarded
  | loopQuit
  | threadJoin
  | loopUnref
  | contextUnref
deriving DecidableEq, Repr

/-- The schedule-thread fields of `GstTaskPoolPrivate` (lines 47-52): the
reference count `need_schedule_thread` (a C `gint`, hence `Int`) and the
context, loop and thread pointers, with `NULL` as `none`. -/
structure ScheduleState where
  need_schedule_thread : Int
  schedule_context : Option Unit
  schedule_loop : Option Unit
  schedule_thread : Option Unit
deriving DecidableEq, Repr

/-- Schedule state of a pool fresh out of `gst_task_pool_init`
(lines 164-167): refcount 0 and no context, loop or thread. -/
def schedInit : ScheduleState :=
  { need_schedule_thread := 0, schedule_context := none,
    schedule_loop := none, schedule_thread := none }

/-- Result of one `gst_task_pool_need_schedule_thread` call: the returned
`gboolean`, the new schedule state, and the operations performed. -/
structure SchedResult where
  ret : Bool
  st : ScheduleState
  ops : List SchedOp
deriving DecidableEq, Repr

/-- `gst_task_pool_need_schedule_thread` (lines 349-394). `isDefault` is the
outcome of the identity check against `gst_task_pool_get_default ()` (line
358). In source order: the `g_return_val_if_fail` precondition (line 355)
returns `FALSE` when `needed` is `FALSE` and the refcount is not positive;
the default pool is rejected with `FALSE` (lines 357-361); an enable at
refcount 0 creates the context, the loop and the thread and performs one bare
`g_cond_wait` (lines 366-376) before the increment (line 377); a disable
decrements (line 380) and, when the count reaches 0, quits the loop, joins
the thread and releases loop and context (lines 381-389); the disable path
sets `ret = FALSE` (line 379). -/
def gst_task_pool_need_schedule_thread (isDefault : Bool) (st : ScheduleState)
    (needed : Bool) : SchedResult :=
  if ¬(needed = true ∨ st.need_schedule_thread > 0) then
    { ret := false, st := st, ops := [] }
  else if isDefault then
    { ret := false, st := st, ops := [] }
  else if needed then
    if st.need_schedule_thread = 0 then
      { ret := true,
        st := { need_schedule_thread := st.need_schedule_thread + 1,
                schedule_context := some (), schedule_loop := some (),
                schedule_thread := some () },
        ops := [SchedOp.contextNew, SchedOp.loopNew, SchedOp.threadNew,
                SchedOp.condWaitOnce] }
    else
      { ret := true,
        st := { st with need_schedule_thread := st.need_schedule_thread + 1 },
        ops := [] }
  else
    if st.need_schedule_thread - 1 = 0 then
      { ret := false,
        st := { need_schedule_thread := st.need_schedule_thread - 1,
                schedule_context := none, schedule_loop := none,
                schedule_thread := none },
        ops := [SchedOp.loopQuit, SchedOp.threadJoin, SchedOp.loopUnref,
                SchedOp.contextUnref] }
    else
      { ret := false,
        st := { st with need_schedule_thread := st.need_schedule_thread - 1 },
        ops := [] }

/-- `gst_task_pool_get_schedule_context` (lines 396-411): the
`g_return_val_if_fail` precondition returns `NULL` unless the refcount is
positive; otherwise the context pointer is returned (with an extra reference
on the context itself); the schedule state is not modified. -/
def gst_task_pool_get_schedule_context (st : ScheduleState) :
    Option Unit × ScheduleState :=
  if st.need_schedule_thread > 0 then (st.schedule_context, st) else (none, st)

/-- Run a sequence of `need_schedule_thread` calls, given by their `needed`
flags, against one pool. -/
def runSched (isDefault : Bool) (st : ScheduleState) : List Bool → ScheduleState
  | [] => st
  | needed :: rest =>
      runSched isDefault (gst_task_pool_need_schedule_thread isDefault st needed).st rest

/-- Invariant of reachable schedule states: the refcount is non-negative and
the context, loop and thread handles exist exactly while it is positive. -/
def SchedInv (st : ScheduleState) : Prop :=
  0 ≤ st.need_schedule_thread ∧
  st.schedule_context = (if 0 < st.need_schedule_thread then some () else none) ∧
  st.schedule_loop = (if 0 < st.need_schedule_thread then some () else none) ∧
  st.schedule_thread = (if 0 < st.need_schedule_thread then some () else none)

/-- Kinds of condition-variable wait constructs. -/
inductive WaitKind where
  | once
  | guardedLoop
deriving DecidableEq, Repr

/-- How a wait on a `GCond` can be woken: by an actual `g_cond_signal`
(here, the one in `main_loop_running_cb`, lines 320-330, dispatched by the
schedule thread's now-running main loop), or spuriously — GLib documents
that `g_cond_wait` may return on a spurious wakeup and that callers must
wrap it in a predicate-rechecking loop. -/
inductive Wakeup where
  | signaled
  | spurious
deriving DecidableEq, Repr

/-- Whether control returns from the wait construct with the awaited
condition — the schedule thread is running its loop, which is what the
signal from `main_loop_running_cb` reports — guaranteed to hold, under the
given wakeup: a bare `g_cond_wait` returns on a spurious wakeup too, with
the condition not established; a predicate-guarded loop re-checks and
re-waits, so it only returns with the condition established. -/
def waitGuaranteesCondition : WaitKind → Wakeup → Bool
  | WaitKind.once, Wakeup.signaled => true
  | WaitKind.once, Wakeup.spurious => false
  | WaitKind.guardedLoop, _ => true

/-- The wait construct of the 0-to-1 enable path (line 375): a single
`g_cond_wait (&pool->priv->schedule_cond, &pool->priv->schedule_lock)` call,
not wrapped in any predicate-checking loop. -/
def enableWaitKind : WaitKind := WaitKind.once

/-- Result of one `gst_task_pool_get_default` call: the returned pool
instance (an allocation identity plus the pool's state), the updated
once-cell, and whether this call constructed and prepared a new pool. -/
structure DefaultPoolResult where
  inst : Nat × PoolState
  cell : Option (Nat × PoolState)
  created : Bool
deriving DecidableEq, Repr

/-- `gst_task_pool_get_default` (lines 413-426): `g_once_init_enter` /
`g_once_init_leave` guard a static cell; on first access a new pool is
constructed with `gst_task_pool_new` (`freshId` is the identity of that
allocation) and prepared with `gst_task_pool_prepare (_pool, NULL)` (`alloc`
is the backend-allocation outcome of that call), then stored; every call
returns a reference (`gst_object_ref`) to the pool held in the cell. -/
def gst_task_pool_get_default (once : Option (Nat × PoolState)) (freshId : Nat)
    (alloc : Option GThreadPool) : DefaultPoolResult :=
  match once with
  | some p => { inst := p, cell := some p, created := false }
  | none =>
      { inst := (freshId, (default_prepare poolInit alloc).1),
        cell := some (freshId, (default_prepare poolInit alloc).1),
        created := true }

/-- Occurrences of a job in a list of jobs. -/
def countJob (t : TaskData) : List TaskData → Nat
  | [] => 0
  | u :: l => (if u = t then 1 else 0) + countJob t l

/-! ### Theorems -/

/-- `countJob` adds over list append. -/
theorem countJob_append (t : TaskData) (l1 l2 : List TaskData) :
    countJob t (l1 ++ l2) = countJob t l1 + countJob t l2 := by
  induction l1 with
  | nil => simp [countJob]
  | cons u l ih => simp [countJob, ih]; omega

/-- `runActs` splits over list append. -/
theorem runActs_append (st : PoolState) (as bs : List Act) :
    runActs st (as ++ bs) = runActs (runActs st as) bs := by
  induction as generalizing st with
  | nil => rfl
  | cons a as ih => simp only [List.cons_append, runActs]; exact ih _

/-- While no `cleanup` occurs, the backend persists, and for every job the
number of invocations so far plus the number of copies still queued equals
the initial figure plus the number of pushes. -/
theorem runActs_count_invariant (as : List Act) (h : Act.cleanup ∉ as)
    (st : PoolState) (tp : GThreadPool) (hp : st.pool = some tp) (t : TaskData) :
    ∃ tp', (runActs st as).pool = some tp' ∧
      countJob t (runActs st as).executed + countJob t tp'.queued =
        countJob t st.executed + countJob t tp.queued + pushCount t as := by
  induction as generalizing st tp with
  | nil => exact ⟨tp, by simpa [runActs, pushCount] using hp, by simp [runActs, pushCount]⟩
  | cons a as ih =>
    have hnotin : Act.cleanup ∉ as := fun hi => h (List.mem_cons_of_mem _ hi)
    cases a with
    | push u =>
      have hstep : stepAct st (Act.push u) =
          { st with pool := some { queued := tp.queued ++ [u] } } := by
        simp [stepAct, default_push, hp, g_thread_pool_push]
      obtain ⟨tp', h1, h2⟩ :=
        ih hnotin (stepAct st (Act.push u)) { queued := tp.queued ++ [u] }
          (by rw [hstep])
      refine ⟨tp', h1, ?_⟩
      show countJob t (runActs (stepAct st (Act.push u)) as).executed +
          countJob t tp'.queued = _
      rw [h2, hstep]
      simp only [countJob_append, countJob, pushCount]
      by_cases huv : u = t <;> simp [huv] <;> omega
    | work =>
      rcases hq : tp.queued with _ | ⟨x, rest⟩
      · have hstep : stepAct st Act.work = st := by
          simp [stepAct, workerStep, hp, hq]
        have hrun : runActs st (Act.work :: as) = runActs st as := by
          simp only [runActs, hstep]
        have hpc : pushCount t (Act.work :: as) = pushCount t as := rfl
        rw [hrun, hpc]
        have hres := ih hnotin st tp hp
        rw [hq] at hres
        exact hres
      · have hstep : stepAct st Act.work =
            { pool := some { queued := rest }, executed := st.executed ++ [x] } := by
          simp [stepAct, workerStep, hp, hq]
        obtain ⟨tp', h1, h2⟩ :=
          ih hnotin (stepAct st Act.work) { queued := rest } (by rw [hstep])
        refine ⟨tp', h1, ?_⟩
        show countJob t (runActs (stepAct st Act.work) as).executed +
            countJob t tp'.queued = _
        rw [h2, hstep]
        simp only [countJob_append, countJob, pushCount, hq]
        by_cases hxv : x = t <;> simp [hxv] <;> omega
    | cleanup => exact absurd (List.mem_cons_self _ _) h

/-- C1: after any sequence of pushes (freely interleaved with worker
activity, but with no earlier cleanup) followed by one `cleanup` on a
prepared pool with the default backend, every job has been invoked exactly
as many times as it was pushed — each of the N accepted jobs exactly once,
none discarded — and the backend is gone, so `cleanup` returned only after
the whole queue drained. -/
theorem cleanup_runs_each_accepted_job_exactly_once (as : List Act)
    (h : Act.cleanup ∉ as) (t : TaskData) :
    countJob t (runActs preparedPool (as ++ [Act.cleanup])).executed =
      pushCount t as ∧
    (runActs preparedPool (as ++ [Act.cleanup])).pool = none := by
  obtain ⟨tp', h1, h2⟩ :=
    runActs_count_invariant as h preparedPool { queued := [] } rfl t
  rw [runActs_append]
  have hclean : runActs (runActs preparedPool as) [Act.cleanup] =
      default_cleanup (runActs preparedPool as) := rfl
  rw [hclean]
  simp only [countJob] at h2
  constructor
  · simp only [default_cleanup, h1, g_thread_pool_free_queued, countJob_append]
    omega
  · simp [default_cleanup, h1]

/-- Witness for C1: push jobs 1 and 2 with a worker step in between, then
clean up; job 1 has run exactly once and the backend is released. -/
theorem cleanup_runs_each_accepted_job_exactly_once_witness :
    countJob 1 (runActs preparedPool
        ([Act.push 1, Act.work, Act.push 2] ++ [Act.cleanup])).executed =
      pushCount 1 [Act.push 1, Act.work, Act.push 2] ∧
    (runActs preparedPool
        ([Act.push 1, Act.work, Act.push 2] ++ [Act.cleanup])).pool = none :=
  cleanup_runs_each_accepted_job_exactly_once
    [Act.push 1, Act.work, Act.push 2] (by decide) 1

/-- One `need_schedule_thread` call preserves the schedule-state invariant. -/
theorem schedInv_step (isDefault : Bool) (st : ScheduleState) (needed : Bool)
    (h : SchedInv st) :
    SchedInv (gst_task_pool_need_schedule_thread isDefault st needed).st := by
  obtain ⟨h0, hc, hl, ht⟩ := h
  unfold gst_task_pool_need_schedule_thread
  split
  · exact ⟨h0, hc, hl, ht⟩
  split
  · exact ⟨h0, hc, hl, ht⟩
  split
  · split
    · rename_i hz
      refine ⟨?_, ?_, ?_, ?_⟩
      · show (0:Int) ≤ st.need_schedule_thread + 1
        omega
      · show some () = if 0 < st.need_schedule_thread + 1 then some () else none
        rw [if_pos (by omega)]
      · show some () = if 0 < st.need_schedule_thread + 1 then some () else none
        rw [if_pos (by omega)]
      · show some () = if 0 < st.need_schedule_thread + 1 then some () else none
        rw [if_pos (by omega)]
    · rename_i hz
      have hpos : 0 < st.need_schedule_thread := by omega
      refine ⟨?_, ?_, ?_, ?_⟩
      · show (0:Int) ≤ st.need_schedule_thread + 1
        omega
      · show st.schedule_context =
            if 0 < st.need_schedule_thread + 1 then some () else none
        rw [hc, if_pos hpos, if_pos (by omega)]
      · show st.schedule_loop =
            if 0 < st.need_schedule_thread + 1 then some () else none
        rw [hl, if_pos hpos, if_pos (by omega)]
      · show st.schedule_thread =
            if 0 < st.need_schedule_thread + 1 then some () else none
        rw [ht, if_pos hpos, if_pos (by omega)]
  · rename_i hpre hdef hneed
    have hpos : 0 < st.need_schedule_thread := by
      rcases not_not.mp hpre with hn | hn
      · exact absurd hn hneed
      · exact hn
    split
    · rename_i hz
      refine ⟨?_, ?_, ?_, ?_⟩
      · show (0:Int) ≤ st.need_schedule_thread - 1
        omega
      · show none = if 0 < st.need_schedule_thread - 1 then some () else none
        rw [if_neg (by omega)]
      · show none = if 0 < st.need_schedule_thread - 1 then some () else none
        rw [if_neg (by omega)]
      · show none = if 0 < st.need_schedule_thread - 1 then some () else none
        rw [if_neg (by omega)]
    · rename_i hz
      refine ⟨?_, ?_, ?_, ?_⟩
      · show (0:Int) ≤ st.need_schedule_thread - 1
        omega
      · show st.schedule_context =
            if 0 < st.need_schedule_thread - 1 then some () else none
        rw [hc, if_pos hpos, if_pos (by omega)]
      · show st.schedule_loop =
            if 0 < st.need_schedule_thread - 1 then some () else none
        rw [hl, if_pos hpos, if_pos (by omega)]
      · show st.schedule_thread =
            if 0 < st.need_schedule_thread - 1 then some () else none
        rw [ht, if_pos hpos, if_pos (by omega)]

/-- The schedule-state invariant holds along every run from a given
invariant state. -/
theorem schedInv_runSched (isDefault : Bool) (calls : List Bool)
    (st : ScheduleState) (h : SchedInv st) :
    SchedInv (runSched isDefault st calls) := by
  induction calls generalizing st with
  | nil => exact h
  | cons c cs ih => exact ih _ (schedInv_step isDefault st c h)

/-- The initial schedule state satisfies the invariant. -/
theorem schedInv_init : SchedInv schedInit := by
  refine ⟨le_refl 0, ?_, ?_, ?_⟩ <;> simp [schedInit]

/-- In any state, a `need_schedule_thread` call creates the thread exactly
when it is an enable on a non-default pool at refcount 0, and joins it
exactly when it is a disable on a non-default pool at refcount 1. -/
theorem sched_create_join_ops (isDefault : Bool) (st : ScheduleState)
    (needed : Bool) :
    (SchedOp.threadNew ∈ (gst_task_pool_need_schedule_thread isDefault st needed).ops ↔
      isDefault = false ∧ needed = true ∧ st.need_schedule_thread = 0) ∧
    (SchedOp.threadJoin ∈ (gst_task_pool_need_schedule_thread isDefault st needed).ops ↔
      isDefault = false ∧ needed = false ∧ st.need_schedule_thread = 1) := by
  unfold gst_task_pool_need_schedule_thread
  cases isDefault with
  | false =>
    cases needed with
    | false =>
      by_cases hp : st.need_schedule_thread > 0
      · by_cases hz : st.need_schedule_thread - 1 = 0
        · simp [hp, hz]
          omega
        · simp [hp, hz]
          omega
      · simp [hp]
        omega
    | true =>
      by_cases hz : st.need_schedule_thread = 0
      · simp [hz]
      · simp [hz]
  | true =>
    cases needed <;> by_cases hp : st.need_schedule_thread > 0 <;> simp [hp]

/-- C3: for every pool and every sequence of `need_schedule_thread` calls
from the initial state, the dedicated schedule thread — and with it the
context and the loop — exists exactly while the schedule refcount is
positive; a further call creates them exactly when it is a 0-to-1 enable on
a non-default pool, and joins the thread (releasing loop and context)
exactly when it is a 1-to-0 disable on a non-default pool; and
`gst_task_pool_get_schedule_context`, the only other function touching this
state, never modifies it. -/
theorem schedule_thread_exists_iff_refcount_positive (isDefault : Bool)
    (calls : List Bool) :
    ((0 < (runSched isDefault schedInit calls).need_schedule_thread ↔
        (runSched isDefault schedInit calls).schedule_thread = some ()) ∧
     (0 < (runSched isDefault schedInit calls).need_schedule_thread ↔
        (runSched isDefault schedInit calls).schedule_context = some ()) ∧
     (0 < (runSched isDefault schedInit calls).need_schedule_thread ↔
        (runSched isDefault schedInit calls).schedule_loop = some ())) ∧
    (∀ needed : Bool,
      (SchedOp.threadNew ∈ (gst_task_pool_need_schedule_thread isDefault
          (runSched isDefault schedInit calls) needed).ops ↔
        isDefault = false ∧ needed = true ∧
          (runSched isDefault schedInit calls).need_schedule_thread = 0) ∧
      (SchedOp.threadJoin ∈ (gst_task_pool_need_schedule_thread isDefault
          (runSched isDefault schedInit calls) needed).ops ↔
        isDefault = false ∧ needed = false ∧
          (runSched isDefault schedInit calls).need_schedule_thread = 1)) ∧
    (∀ su : ScheduleState, (gst_task_pool_get_schedule_context su).2 = su) := by
  obtain ⟨h0, hc, hl, ht⟩ := schedInv_runSched isDefault calls schedInit schedInv_init
  refine ⟨⟨?_, ?_, ?_⟩,
    fun needed => sched_create_join_ops isDefault _ needed, ?_⟩
  · rw [ht]
    by_cases hpos : 0 < (runSched isDefault schedInit calls).need_schedule_thread
    · simp [hpos]
    · simp [hpos]
  · rw [hc]
    by_cases hpos : 0 < (runSched isDefault schedInit calls).need_schedule_thread
    · simp [hpos]
    · simp [hpos]
  · rw [hl]
    by_cases hpos : 0 < (runSched isDefault schedInit calls).need_schedule_thread
    · simp [hpos]
    · simp [hpos]
  · intro su
    unfold gst_task_pool_get_schedule_context
    split <;> rfl

/-- C2: on a pool with no active backend (`pool->pool = NULL`, as before
`prepare`, after `cleanup`, or after a failed `prepare`), `default_push`
returns the null handle, leaves the state unchanged (the job is dropped,
never queued or invoked), and writes nothing to the error out parameter;
whereas on a pool with a backend, a backend-reported submission failure is
written to the error out parameter. -/
theorem push_without_backend_silently_drops (st su : PoolState) (t u : TaskData)
    (e : Option GError) (tp : GThreadPool) (err : GError)
    (h : st.pool = none) (hu : su.pool = some tp) :
    default_push st t e = (st, none, none) ∧
    (default_push su u (some err)).2.2 = some err := by
  constructor
  · simp [default_push, h]
  · simp [default_push, hu, g_thread_pool_push]

/-- Witness for C2: pushing job 7 on a fresh pool drops it silently; pushing
job 8 on a prepared pool with a backend-reported failure surfaces the error. -/
theorem push_without_backend_silently_drops_witness :
    default_push poolInit 7 none = (poolInit, none, none) ∧
    (default_push preparedPool 8 (some { code := 3 })).2.2 = some { code := 3 } :=
  push_without_backend_silently_drops poolInit preparedPool 7 8 none
    { queued := [] } { code := 3 } rfl rfl

/-- C4: on a non-default pool starting idle, two enables bring the schedule
refcount to 2 with a live context; one disable leaves it active at refcount 1
(the thread is not joined); a second disable joins the thread and returns the
state to idle; a third disable is rejected by the precondition check,
returning `FALSE` with no decrement and no operation. -/
theorem schedule_enable_disable_scenario :
    (gst_task_pool_need_schedule_thread false
        (gst_task_pool_need_schedule_thread false schedInit true).st true).st.need_schedule_thread = 2 ∧
    (gst_task_pool_need_schedule_thread false
        (gst_task_pool_need_schedule_thread false schedInit true).st true).st.schedule_context = some () ∧
    (gst_task_pool_need_schedule_thread false
        (gst_task_pool_need_schedule_thread false
          (gst_task_pool_need_schedule_thread false schedInit true).st true).st false).st.need_schedule_thread = 1 ∧
    (gst_task_pool_need_schedule_thread false
        (gst_task_pool_need_schedule_thread false
          (gst_task_pool_need_schedule_thread false schedInit true).st true).st false).st.schedule_thread = some () ∧
    SchedOp.threadJoin ∉ (gst_task_pool_need_schedule_thread false
        (gst_task_pool_need_schedule_thread false
          (gst_task_pool_need_schedule_thread false schedInit true).st true).st false).ops ∧
    (gst_task_pool_need_schedule_thread false
        (gst_task_pool_need_schedule_thread false
          (gst_task_pool_need_schedule_thread false
            (gst_task_pool_need_schedule_thread false schedInit true).st true).st false).st false).st = schedInit ∧
    SchedOp.threadJoin ∈ (gst_task_pool_need_schedule_thread false
        (gst_task_pool_need_schedule_thread false
          (gst_task_pool_need_schedule_thread false
            (gst_task_pool_need_schedule_thread false schedInit true).st true).st false).st false).ops ∧
    gst_task_pool_need_schedule_thread false schedInit false =
      { ret := false, st := schedInit, ops := [] } := by
  decide

/-- C5: the 0-to-1 enable path performs exactly the operations context-new,
loop-new, thread-new and then one single bare `g_cond_wait`, and never a
predicate-guarded wait loop; a bare `g_cond_wait` returns on a spurious
wakeup with the loop-is-running condition not established, while it does
block until the `main_loop_running_cb` signal in the absence of spurious
wakeups. Hence the enabling caller's wait is not guarded against spurious
wakeups and the caller can proceed (and observe the context handle) before
the loop is live. -/
theorem enable_wait_unguarded_against_spurious_wakeup :
    (gst_task_pool_need_schedule_thread false schedInit true).ops =
      [SchedOp.contextNew, SchedOp.loopNew, SchedOp.threadNew, SchedOp.condWaitOnce] ∧
    SchedOp.condWaitGuarded ∉ (gst_task_pool_need_schedule_thread false schedInit true).ops ∧
    enableWaitKind = WaitKind.once ∧
    waitGuaranteesCondition enableWaitKind Wakeup.spurious = false ∧
    waitGuaranteesCondition enableWaitKind Wakeup.signaled = true := by
  decide

/-- C6: every `need_schedule_thread` request on the process-wide default
pool, enable or disable, in any schedule state, returns `FALSE`, leaves the
schedule state unchanged, and performs no operation. -/
theorem default_pool_schedule_request_rejected (st : ScheduleState) (needed : Bool) :
    gst_task_pool_need_schedule_thread true st needed =
      { ret := false, st := st, ops := [] } := by
  unfold gst_task_pool_need_schedule_thread
  split
  · rfl
  · simp

/-- C7 (counterexample): a `prepare` whose backend allocation fails writes
nothing to the caller's `GError` out parameter — contrary to the claim that
the failure is surfaced through it — because `default_prepare` hands
`g_thread_pool_new` a `NULL` error location and never touches `error`. -/
theorem prepare_failure_writes_no_error :
    (default_prepare poolInit none).2 = none ∧
    (default_prepare poolInit none).1.pool = none := by
  constructor <;> rfl

/-- C7 (amended): when backend allocation fails in `prepare`, the failure is
NOT surfaced through the `GError` out parameter (nothing is written to it),
the pool remains without a backend, and subsequent `push` calls silently
drop their jobs. -/
theorem prepare_failure_unsurfaced_backendless (st : PoolState) (t : TaskData)
    (e : Option GError) :
    (default_prepare st none).2 = none ∧
    (default_prepare st none).1.pool = none ∧
    default_push (default_prepare st none).1 t e =
      ((default_prepare st none).1, none, none) := by
  refine ⟨rfl, rfl, ?_⟩
  simp [default_prepare, g_thread_pool_new, default_push]

/-- C8: `default_push` returns the null handle in every state and under
every submission outcome, and `default_join` does nothing on any handle (it
has no error parameter, so it can raise no error). -/
theorem push_null_handle_and_join_noop (st : PoolState) (t : TaskData)
    (e : Option GError) (id : Option Unit) :
    (default_push st t e).2.1 = none ∧ default_join st id = st := by
  refine ⟨?_, rfl⟩
  cases h : st.pool <;> simp [default_push, h]

/-- C9: any call after the first returns exactly the instance the first call
returned and leaves the once-cell unchanged without creating anything, and a
first access (empty cell) does construct-and-prepare; hence all calls return
the same underlying pool instance and it is created and prepared exactly
once. -/
theorem get_default_returns_single_instance (once : Option (Nat × PoolState))
    (f1 f2 : Nat) (a1 a2 : Option GThreadPool) :
    (gst_task_pool_get_default (gst_task_pool_get_default once f1 a1).cell f2 a2).inst =
      (gst_task_pool_get_default once f1 a1).inst ∧
    (gst_task_pool_get_default (gst_task_pool_get_default once f1 a1).cell f2 a2).cell =
      (gst_task_pool_get_default once f1 a1).cell ∧
    (gst_task_pool_get_default (gst_task_pool_get_default once f1 a1).cell f2 a2).created = false ∧
    (gst_task_pool_get_default none f1 a1).created = true := by
  cases once <;> simp [gst_task_pool_get_default]

/-- C10: a disable request (`needed = FALSE`) returns `FALSE` on every pool
and in every schedule state — also when the disable succeeds — so the boolean
result of a disable cannot be told apart from the default-pool rejection;
only enable requests can return `TRUE`. -/
theorem disable_always_returns_false (isDefault : Bool) (st : ScheduleState) :
    (gst_task_pool_need_schedule_thread isDefault st false).ret = false := by
  unfold gst_task_pool_need_schedule_thread
  split
  · rfl
  · split
    · rfl
    · simp only [Bool.false_eq_true, if_false]
      split <;> rfl

end GstTaskPool
